import Mathlib

/-!
Verification of the tool-invocation core of the Terrain-Chatbot backend.

The development shallowly embeds the Python sources under
`backend/app/` into Lean:

* `PyJson` models Python/JSON values as they flow through the tool layer
  (dicts are association lists in insertion order, numbers are integers,
  which suffices for every value the embedded code constructs or inspects).
* `ToolSpec` / `ToolsRegistry` embed `services/tools/registry.py`.
* `RateLimiter` embeds the sliding-window limiter of `services/tools/gemini.py`.
* `fakeChat` / `realChat` / `chatWithTools` embed `LLMClient.chat_with_tools`;
  the outbound model backend (`google.generativeai`) and the standard-library
  JSON parser (`json.loads`) are external collaborators and are passed in as
  function parameters, exactly at the boundary where the Python code calls them.
* `chatRoute` embeds the decision logic of `blueprints/chat/routes.py::chat`,
  with the part after request validation passed in as a parameter.

Fallible Python code is modelled with `Except PyErr`; raising an exception is
`Except.error`, and in-place mutation of an object is explicit state passing.
-/

/-- ASCII apostrophe, used when building message strings. -/
def pyQuote : String := String.singleton (Char.ofNat 39)

/-- Python-level errors that the embedded code can raise.  `toolError` is
`app.utils.errors.ToolError`; `runtimeError` is the `RuntimeError` raised by
the rate limiter in `mode="error"`; the rest are built-in Python exceptions
that the dynamic attribute/key accesses in the sources can raise. -/
inductive PyErr where
  | toolError (msg : String)
  | typeError (msg : String)
  | attributeError
  | keyError (k : String)
  | runtimeError
  | other (msg : String)
deriving DecidableEq, Repr

/-- Python/JSON values as used by the embedded tool layer.  Numbers are
modelled as integers (no embedded computation depends on float behaviour);
dicts are association lists in insertion order with unique keys. -/
inductive PyJson where
  | null
  | bool (b : Bool)
  | num (n : Int)
  | str (s : String)
  | list (xs : List PyJson)
  | dict (fields : List (String × PyJson))
deriving Repr

mutual

/-- Structural equality on `PyJson` (Python `==` on these values). -/
def PyJson.beq : PyJson → PyJson → Bool
  | .null, .null => true
  | .bool a, .bool b => a == b
  | .num a, .num b => a == b
  | .str a, .str b => a == b
  | .list a, .list b => PyJson.beqList a b
  | .dict a, .dict b => PyJson.beqFields a b
  | _, _ => false

def PyJson.beqList : List PyJson → List PyJson → Bool
  | [], [] => true
  | a :: as, b :: bs => PyJson.beq a b && PyJson.beqList as bs
  | _, _ => false

def PyJson.beqFields : List (String × PyJson) → List (String × PyJson) → Bool
  | [], [] => true
  | (ka, va) :: as, (kb, vb) :: bs => ka == kb && PyJson.beq va vb && PyJson.beqFields as bs
  | _, _ => false

end

/-- Python truthiness (`bool(x)`) for the modelled values. -/
def pyTruthy : PyJson → Bool
  | .null => false
  | .bool b => b
  | .num n => n != 0
  | .str s => s ≠ ""
  | .list xs => !xs.isEmpty
  | .dict fs => !fs.isEmpty

mutual

/-- Python `repr` for the modelled values (best effort for containers;
no claim inspects the repr of a container). -/
def pyRepr : PyJson → String
  | .null => "None"
  | .bool true => "True"
  | .bool false => "False"
  | .num n => toString n
  | .str s => pyQuote ++ s ++ pyQuote
  | .list xs => "[" ++ pyReprList xs ++ "]"
  | .dict fs => "\x7b" ++ pyReprFields fs ++ "\x7d"

def pyReprList : List PyJson → String
  | [] => ""
  | [x] => pyRepr x
  | x :: xs => pyRepr x ++ ", " ++ pyReprList xs

def pyReprFields : List (String × PyJson) → String
  | [] => ""
  | [(k, v)] => pyQuote ++ k ++ pyQuote ++ ": " ++ pyRepr v
  | (k, v) :: fs => pyQuote ++ k ++ pyQuote ++ ": " ++ pyRepr v ++ ", " ++ pyReprFields fs

end

/-- Python `str(x)` / f-string interpolation for the modelled values. -/
def pyToStr : PyJson → String
  | .str s => s
  | v => pyRepr v

/-- Lookup in a Python dict modelled as an association list. -/
def dictLookup {α : Type} (fs : List (String × α)) (k : String) : Option α :=
  (fs.find? (fun p => p.1 == k)).map (·.2)

/-- Python dict assignment `d[k] = v`: replaces in place when the key exists,
appends otherwise (dicts preserve insertion order). -/
def dictSet {α : Type} (fs : List (String × α)) (k : String) (v : α) :
    List (String × α) :=
  if (fs.find? (fun p => p.1 == k)).isSome then
    fs.map (fun p => if p.1 == k then (k, v) else p)
  else fs ++ [(k, v)]

/-- Python `d.get(k, dflt)`: `AttributeError` when the receiver is not a dict. -/
def pyDictGetD (v : PyJson) (k : String) (dflt : PyJson) : Except PyErr PyJson :=
  match v with
  | .dict fs => .ok ((dictLookup fs k).getD dflt)
  | _ => .error .attributeError

/-- Python `d.get(k)` (default `None`). -/
def pyDictGet (v : PyJson) (k : String) : Except PyErr PyJson :=
  pyDictGetD v k .null

/-- Python `d.keys()` as a list, insertion order. -/
def pyDictKeys (v : PyJson) : Except PyErr (List String) :=
  match v with
  | .dict fs => .ok (fs.map (·.1))
  | _ => .error .attributeError

/-- Membership in a set of strings modelled as a duplicate-free list. -/
def setInsert (s : List String) (x : String) : List String :=
  if s.contains x then s else s ++ [x]

/-- Effectful map over a list (the list comprehensions of the source, which
stop at the first raised exception). -/
def exceptMapM {α β : Type} (f : α → Except PyErr β) : List α → Except PyErr (List β)
  | [] => .ok []
  | a :: as =>
    match f a with
    | .error e => .error e
    | .ok b =>
      match exceptMapM f as with
      | .error e => .error e
      | .ok bs => .ok (b :: bs)

/-- Drop leading whitespace characters. -/
def dropLeadingWs : List Char → List Char
  | [] => []
  | c :: cs => if c.isWhitespace then dropLeadingWs cs else c :: cs

/-- Python `s.strip()`: remove leading and trailing whitespace. -/
def pyStrip (s : String) : String :=
  String.mk ((dropLeadingWs (dropLeadingWs s.toList).reverse).reverse)

/-- Contiguous-sublist test on character lists. -/
def charsInfix (pat : List Char) : List Char → Bool
  | [] => pat.isEmpty
  | c :: rest => pat.isPrefixOf (c :: rest) || charsInfix pat rest

/-- Python substring test `pat in s`. -/
def strContains (s pat : String) : Bool :=
  charsInfix pat.toList s.toList

/- ----------------------------------------------------------------------
`backend/app/services/tools/registry.py`
---------------------------------------------------------------------- -/

/-- `registry.ToolSpec` (a dataclass).  The handler may raise, hence returns
`Except`. -/
structure ToolSpec where
  name : String
  description : String
  parameters : PyJson
  handler : PyJson → Except PyErr PyJson
  allow_multiple : Bool := false

/-- The mutable state of `registry.ToolsRegistry`: the `_tools` dict and the
`_called` set. -/
structure ToolsRegistry where
  tools : List (String × ToolSpec) := []
  called : List String := []

/-- `ToolsRegistry.register`. -/
def ToolsRegistry.register (st : ToolsRegistry) (spec : ToolSpec) : ToolsRegistry :=
  { st with tools := dictSet st.tools spec.name spec }

/-- `ToolsRegistry.list_for_llm` produces dicts with exactly these fields. -/
structure ToolDecl where
  name : String
  description : String
  parameters : PyJson

/-- `ToolsRegistry.list_for_llm`. -/
def ToolsRegistry.list_for_llm (st : ToolsRegistry) : List ToolDecl :=
  st.tools.map (fun p => ⟨p.2.name, p.2.description, p.2.parameters⟩)

/-- One line of the search-result list comprehension in
`ToolsRegistry._to_nl`: `f"\"{it.get(...)}\" by {it.get(...)} ({it.get(...,'unknown')})"`. -/
def renderBookLine (it : PyJson) : Except PyErr String := do
  let t ← pyDictGet it "title"
  let a ← pyDictGet it "author"
  let s ← pyDictGetD it "status" (.str "unknown")
  pure ("\"" ++ pyToStr t ++ "\" by " ++ pyToStr a ++ " (" ++ pyToStr s ++ ")")

/-- `ToolsRegistry._to_nl`.  For `search_books` it reads `payload.get("items", [])`;
a falsy `items` value yields the no-results message, a non-empty list is
rendered as a bulleted list of the first five entries, and any other truthy
value would make the Python loop raise (`AttributeError` when iterating a
string, `TypeError` otherwise). -/
def ToolsRegistry.toNl (name : String) (payload : PyJson) : Except PyErr String :=
  if name = "search_books" then do
    let itemsv ← pyDictGetD payload "items" (.list [])
    if pyTruthy itemsv = false then
      pure "No matching books found."
    else
      match itemsv with
      | .list items => do
          let tops ← exceptMapM renderBookLine (items.take 5)
          pure ("I found these books:\n- " ++ String.intercalate "\n- " tops)
      | .str _ => throw .attributeError
      | _ => throw (.typeError "argument of an unsupported type for slicing")
  else if name = "wrap_prompt_from_links" then
    pure "Prompt composed successfully. Ready to send to the API."
  else
    pure "Operation completed."

/-- The denial payload built in `ToolsRegistry.run` for a repeated call to a
single-use tool. -/
def denyPayload (name : String) : PyJson :=
  .dict [("_policy", .str "deny_second_call"),
         ("message", .str ("Tool " ++ pyQuote ++ name ++ pyQuote ++ " already used."))]

/-- `ToolsRegistry.run`.  The registry object is mutated in place in Python,
so the post-state is returned in every case, including when the handler (or
the renderer) raises: `_called.add(name)` happens before the handler runs. -/
def ToolsRegistry.run (st : ToolsRegistry) (name : String) (args : PyJson) :
    Except PyErr PyJson × ToolsRegistry :=
  match dictLookup st.tools name with
  | none => (.error (.toolError ("Unknown tool: " ++ name)), st)
  | some tool =>
    if !tool.allow_multiple && st.called.contains name then
      (.ok (denyPayload name), st)
    else
      let st1 : ToolsRegistry := { st with called := setInsert st.called name }
      match tool.handler args with
      | .error e => (.error e, st1)
      | .ok result =>
        match ToolsRegistry.toNl name result with
        | .error e => (.error e, st1)
        | .ok nl => (.ok (.dict [("_nl", .str nl), ("_raw", result)]), st1)

/-- `ToolsRegistry.run` as called through the dynamic `tool_runner` interface
of `chat_with_tools`, where the requested name is whatever the decision JSON
held.  A non-string name is never a key of the `_tools` dict (its keys are
strings), so it hits the `Unknown tool` branch. -/
def ToolsRegistry.runPy (st : ToolsRegistry) (name args : PyJson) :
    Except PyErr PyJson × ToolsRegistry :=
  match name with
  | .str s => st.run s args
  | v => (.error (.toolError ("Unknown tool: " ++ pyToStr v)), st)

/-- `registry.build_default_registry`.  The only registered tool is
`wrap_prompt_from_links`; its handler fetches URLs over HTTP via
`wrap_prompt`, so that external effect is passed in as a parameter.  Note
that `search_books` is imported by `registry.py` but never registered. -/
def build_default_registry (wrapHandler : PyJson → Except PyErr PyJson) :
    ToolsRegistry :=
  ToolsRegistry.register {}
    { name := "wrap_prompt_from_links"
      description := "Fetch two .txt files and inject the second into the first at \x7b\x7bCONTENT\x7d\x7d."
      parameters := .dict
        [("type", .str "object"),
         ("properties", .dict
           [("outer_link", .dict [("type", .str "string")]),
            ("inner_link", .dict [("type", .str "string")]),
            ("placeholder", .dict [("type", .str "string"),
                                   ("default", .str "\x7b\x7bCONTENT\x7d\x7d")])]),
         ("required", .list [.str "outer_link", .str "inner_link"])]
      handler := wrapHandler
      allow_multiple := true }

/- ----------------------------------------------------------------------
`backend/app/services/tools/gemini.py`
---------------------------------------------------------------------- -/

/-- `gemini.RATE_LIMITED_MESSAGE`. -/
def RATE_LIMITED_MESSAGE : String :=
  "Sorry, I’m handling too many requests right now. Please try again soon."

/-- The `mode` field of `gemini._RateLimiter`. -/
inductive RLMode where
  | block
  | error
deriving DecidableEq, Repr

/-- The state of `gemini._RateLimiter`: configuration plus the `_history`
deque of call timestamps (front = oldest).  Timestamps are rationals,
standing for the monotonic-clock floats of the source. -/
structure RateLimiter where
  max_calls : Int
  window : ℚ
  mode : RLMode
  history : List ℚ
deriving DecidableEq, Repr

/-- The eviction loop of `_RateLimiter.acquire`:
`while self._history and now - self._history[0] >= self.window: popleft()`. -/
def evictOld (window now : ℚ) : List ℚ → List ℚ
  | [] => []
  | h :: t => if now - h ≥ window then evictOld window now t else h :: t

/-- The outcome of one pass of the `while True` loop in `_RateLimiter.acquire`
at clock value `now`.  `admitted` means the call returned; `rejected` means the
`mode == "error"` branch raised `RuntimeError`; `wouldBlock wait` means the
`mode == "block"` branch is about to sleep for `max(wait, 0)` and retry. -/
inductive AcquireOutcome where
  | admitted
  | rejected
  | wouldBlock (wait : ℚ)
deriving DecidableEq, Repr

/-- One admission check of `_RateLimiter.acquire`.  The guard
`if not self.max_calls or self.max_calls < 0` admits immediately without
touching the history when `max_calls` is zero (unset) or negative. -/
def RateLimiter.acquire (L : RateLimiter) (now : ℚ) :
    AcquireOutcome × RateLimiter :=
  if L.max_calls = 0 ∨ L.max_calls < 0 then
    (.admitted, L)
  else
    let hist := evictOld L.window now L.history
    if (hist.length : Int) < L.max_calls then
      (.admitted, { L with history := hist ++ [now] })
    else
      match L.mode with
      | .error => (.rejected, { L with history := hist })
      | .block => (.wouldBlock (L.window - (now - hist.headD 0)), { L with history := hist })

/-- One entry of the `messages` list handed to `chat_with_tools` (the route
always builds dicts with exactly a `role` and a `content` key). -/
structure Message where
  role : String
  content : String

/-- `next((m["content"] for m in messages if m["role"] == "user"), "")`. -/
def firstUserContent (messages : List Message) : String :=
  match messages.find? (fun m => m.role == "user") with
  | some m => m.content
  | none => ""

/-- The result of one `chat_with_tools` turn.  `text` and `used` are the
returned pair; `prompts` additionally records, in order, the prompt of every
`self._call` the turn attempted (including ones denied by the rate limiter),
so that theorems can speak about which model calls were issued. -/
structure ChatResult where
  text : String
  used : List PyJson
  prompts : List String

/-- `gemini.SYSTEM_TOOL_PROTOCOL` (the tool-decision preamble). -/
def SYSTEM_TOOL_PROTOCOL : String :=
  "\nYou are Terrain's assistant. You can either answer directly, or if a tool is needed,\nyou must output ONLY a single JSON object on one line with this structure:\n\n\x7b\"tool\": \"<tool_name>\", \"args\": \x7b ... \x7d, \"success_message\": \"...\", \"empty_message\": \"...\"\"\x7d\n\n\n\n\nRules:\n- Do not include any extra text or Markdown, only the JSON.\n- If no tool is needed, output \x7b\"tool\": null\x7d.\n- Tool names must exactly match those provided below.\nAvailable tools:\n\x7bTOOL_DOCS\x7d\n"

/-- `gemini.FOLLOWUP_SUMMARIZER` (the summarization template). -/
def FOLLOWUP_SUMMARIZER : String :=
  "\nSummarize the following TOOL_RESULT for the user in English.\nBe concise and helpful.\n\nTOOL_RESULT:\n\n\x7btool_text\x7d\n"

/-- One line of the tool documentation built at the start of the real branch
of `chat_with_tools`:
`f"- \x7bt['name']\x7d: \x7bt['description']\x7d (params: \x7bparams\x7d)"`. -/
def toolDocLine (t : ToolDecl) : Except PyErr String := do
  let props ← pyDictGetD t.parameters "properties" (.dict [])
  let keys ← pyDictKeys props
  pure ("- " ++ t.name ++ ": " ++ t.description ++
        " (params: " ++ String.intercalate ", " keys ++ ")")

/-- The prompt of the tool-decision call:
`sys_prompt + "\n\nUser:\n" + user_text` with `\x7bTOOL_DOCS\x7d` replaced by the
rendered tool documentation. -/
def decidePromptOf (toolDecls : List ToolDecl) (messages : List Message) :
    Except PyErr String := do
  let lines ← exceptMapM toolDocLine toolDecls
  let sysPrompt :=
    SYSTEM_TOOL_PROTOCOL.replace "\x7bTOOL_DOCS\x7d" (String.intercalate "\n" lines)
  pure (sysPrompt ++ "\n\nUser:\n" ++ firstUserContent messages)

/-- The prompt of the follow-up summarization call:
`FOLLOWUP_SUMMARIZER.format(tool_text=nl)` where
`nl = tool_result.get("_nl") or "操作完成。"`. -/
def summaryPromptOf (toolResult : PyJson) : Except PyErr String := do
  let nlv ← pyDictGet toolResult "_nl"
  let nl := if pyTruthy nlv then pyToStr nlv else "操作完成。"
  pure (FOLLOWUP_SUMMARIZER.replace "\x7btool_text\x7d" nl)

/-- The direct-answer fallback shared by the protocol-violation branch and the
no-tool branch of `chat_with_tools`: one more `self._call(user_text)`, with the
rate-limiter `RuntimeError` caught and turned into `RATE_LIMITED_MESSAGE`. -/
def directAnswerStep (model : Nat → String → Except PyErr String)
    (userText decidePrompt : String) : Except PyErr ChatResult :=
  match model 1 userText with
  | .error .runtimeError => .ok ⟨RATE_LIMITED_MESSAGE, [], [decidePrompt, userText]⟩
  | .error e => .error e
  | .ok answer => .ok ⟨answer, [], [decidePrompt, userText]⟩

/-- The real (credentialed) branch of `LLMClient.chat_with_tools`
(`gemini.py` lines 132-186).

External collaborators appear as parameters: `jsonParse` is `json.loads`
(`none` = `JSONDecodeError`); `model n p` is the n-th `self._call(p)` of the
turn (`Except.error .runtimeError` = the rate limiter raised in error mode,
any other error = an uncaught backend exception); `toolRunner` is the
`tool_runner` callable (the registry's `run` bound method). -/
def realChat (jsonParse : String → Option PyJson)
    (model : Nat → String → Except PyErr String)
    (messages : List Message) (toolDecls : List ToolDecl)
    (toolRunner : PyJson → PyJson → Except PyErr PyJson) :
    Except PyErr ChatResult := do
  let decidePrompt ← decidePromptOf toolDecls messages
  let userText := firstUserContent messages
  match model 0 decidePrompt with
  | .error .runtimeError => pure ⟨RATE_LIMITED_MESSAGE, [], [decidePrompt]⟩
  | .error e => throw e
  | .ok rawDecide =>
    let decideText := pyStrip rawDecide
    match jsonParse decideText with
    | none =>
      -- protocol violation: not JSON
      if decideText ≠ "" then
        pure ⟨decideText, [], [decidePrompt]⟩
      else
        directAnswerStep model userText decidePrompt
    | some toolReq =>
      if pyTruthy toolReq = false then
        directAnswerStep model userText decidePrompt
      else do
        let toolv ← pyDictGet toolReq "tool"
        match toolv with
        | .null | .str "" | .str "none" =>
          directAnswerStep model userText decidePrompt
        | toolName => do
          let argsv ← pyDictGet toolReq "args"
          let args := if pyTruthy argsv then argsv else .dict []
          -- used.append(tool_name) happens before the tool runs
          let toolResult ← toolRunner toolName args
          let summaryPrompt ← summaryPromptOf toolResult
          match model 1 summaryPrompt with
          | .error .runtimeError =>
            pure ⟨RATE_LIMITED_MESSAGE, [toolName], [decidePrompt, summaryPrompt]⟩
          | .error e => throw e
          | .ok final =>
            pure ⟨final, [toolName], [decidePrompt, summaryPrompt]⟩

/-- The offline/degraded branch of `LLMClient.chat_with_tools`
(`gemini.py` lines 124-130): keyword-triggered canned behaviour, no model
calls, no rate limiting. -/
def fakeChat (messages : List Message)
    (toolRunner : PyJson → PyJson → Except PyErr PyJson) :
    Except PyErr ChatResult :=
  let userMsg := firstUserContent messages
  if (["找", "书", "AI", "book"].any (fun k => strContains userMsg k)) then do
    let result ← toolRunner (.str "search_books") (.dict [("query", .str "AI")])
    let nlv ← pyDictGetD result "_nl" (.str "Done.")
    pure ⟨pyToStr nlv, [.str "search_books"], []⟩
  else
    pure ⟨"Hello, I am the TERRAIN assistant.", [], []⟩

/-- `LLMClient.chat_with_tools`: dispatch on `self._use_fake`. -/
def chatWithTools (useFake : Bool) (jsonParse : String → Option PyJson)
    (model : Nat → String → Except PyErr String)
    (messages : List Message) (toolDecls : List ToolDecl)
    (toolRunner : PyJson → PyJson → Except PyErr PyJson) :
    Except PyErr ChatResult :=
  if useFake then fakeChat messages toolRunner
  else realChat jsonParse model messages toolDecls toolRunner

/-- Python `a or b` on optional credential strings (`None` and `""` falsy). -/
def pyOrStr (a b : Option String) : Option String :=
  match a with
  | some s => if s ≠ "" then some s else b
  | none => b

/-- `LLMClient.__init__`: `self.api_key = api_key or os.environ.get(...)`;
`self._use_fake = not self.api_key`. -/
def useFakeOf (apiKey envKey : Option String) : Bool :=
  match pyOrStr apiKey envKey with
  | none => true
  | some s => s = ""

/- ----------------------------------------------------------------------
`backend/app/blueprints/chat/routes.py` and `schemas.py`
---------------------------------------------------------------------- -/

/-- A Flask JSON response: status code plus `jsonify` payload. -/
structure HttpResponse where
  status : Nat
  body : PyJson

/-- `jsonify(\x7b"error": msg\x7d)`. -/
def jsonError (msg : String) : PyJson :=
  .dict [("error", .str msg)]

/-- The fields of the `ChatRequest` dataclass in
`blueprints/chat/schemas.py` (there is no `history` field). -/
def chatRequestFields : List String :=
  ["user_id", "message", "session_id", "stream", "meta"]

/-- The keyword arguments passed at the `ChatRequest(...)` construction site
in `blueprints/chat/routes.py::chat`. -/
def chatCallKwargs : List String :=
  ["message", "user_id", "history", "session_id", "stream", "meta"]

/-- Python keyword-call semantics for a dataclass `__init__`: a keyword
argument that is not a field raises `TypeError`. -/
def dataclassKwCheck (fields kwargs : List String) : Except PyErr Unit :=
  match kwargs.find? (fun k => !fields.contains k) with
  | some k =>
    .error (.typeError ("__init__() got an unexpected keyword argument " ++
                        pyQuote ++ k ++ pyQuote))
  | none => .ok ()

/-- The `chat` view of `blueprints/chat/routes.py`.

`body` is the parsed JSON body (`request.get_json(force=True) or \x7b\x7d`).
Inside the `try` block the code first evaluates the arguments of
`ChatRequest(...)` — in particular `(body.get("message") or "").strip()` —
then performs the construction call itself, then checks `if not req.message`.
Everything after the validation check (canned replies, relevance gating, the
LLM call) is abstracted as `rest`, invoked with the trimmed message; any
exception escaping the `try` block is turned into a 500 response by the
`except Exception` clause. -/
def chatRoute (body : PyJson)
    (rest : String → Except PyErr HttpResponse) : Except PyErr HttpResponse := do
  let tryBlock : Except PyErr HttpResponse := do
    let msgv ← pyDictGet body "message"
    let msgBase := if pyTruthy msgv then msgv else .str ""
    let message ←
      match msgBase with
      | .str s => Except.ok (pyStrip s)
      | _ => Except.error .attributeError
    dataclassKwCheck chatRequestFields chatCallKwargs
    if message = "" then
      pure ⟨400, jsonError "message is required"⟩
    else
      rest message
  match tryBlock with
  | .ok r => pure r
  | .error _ => pure ⟨500, jsonError "internal error"⟩

/- ----------------------------------------------------------------------
Concrete fixtures used by the witness theorems
---------------------------------------------------------------------- -/

/-- A single-use demo tool with a handler that returns a result. -/
def demoOnceSpec : ToolSpec :=
  { name := "demo_tool"
    description := "a single-use demo tool"
    parameters := .dict []
    handler := fun _ => .ok (.dict [("ok", .bool true)])
    allow_multiple := false }

/-- A registry holding only `demoOnceSpec`. -/
def demoReg : ToolsRegistry := ToolsRegistry.register {} demoOnceSpec

/-- The same demo tool with a handler that raises. -/
def demoRaiseSpec : ToolSpec :=
  { demoOnceSpec with handler := fun _ => .error (.other "boom") }

/-- A registry holding only `demoRaiseSpec`. -/
def demoRaiseReg : ToolsRegistry := ToolsRegistry.register {} demoRaiseSpec

/-- First version of a single-use tool, for the re-registration scenario. -/
def reregSpecV1 : ToolSpec :=
  { name := "demo_once"
    description := "first version"
    parameters := .dict []
    handler := fun _ => .ok (.dict [("v", .num 1)])
    allow_multiple := false }

/-- Second version registered under the same name, with a fresh handler and
`allow_multiple := true`. -/
def reregSpecV2 : ToolSpec :=
  { name := "demo_once"
    description := "second version"
    parameters := .dict []
    handler := fun _ => .ok (.str "from-new-handler")
    allow_multiple := true }

/-- State after registering v1 and running it once successfully. -/
def reregStateAfterRun : ToolsRegistry :=
  ((ToolsRegistry.register {} reregSpecV1).run "demo_once" (.dict [])).2

/-- State after re-registering v2 over the used name. -/
def reregStateB : ToolsRegistry := reregStateAfterRun.register reregSpecV2

/-- A stub for the network-fetching `wrap_prompt_from_links` handler (its
behaviour is irrelevant to every theorem that mentions it). -/
def wrapStubHandler : PyJson → Except PyErr PyJson := fun _ => .ok .null

/-- The end-to-end offline-mode scenario message. -/
def demoAIMessages : List Message :=
  [⟨"user", "Can you help me find a book about AI?"⟩]

/-- `tool_runner` as the route wires it: the bound `run` method of a registry
in a given state (`chat_with_tools` calls it at most once per turn, so
threading the single post-state is unobservable). -/
def runnerOf (st : ToolsRegistry) : PyJson → PyJson → Except PyErr PyJson :=
  fun name args => (st.runPy name args).1

/-- A sample search-result item, shaped like the `book_inventory.search_books`
demo records. -/
def sampleBook : PyJson :=
  .dict [("title", .str "Designing with AI"), ("author", .str "Kim Lee"),
         ("status", .str "available")]

/- ----------------------------------------------------------------------
Helper lemmas
---------------------------------------------------------------------- -/

/-- After `setInsert s x`, the set contains `x`. -/
theorem setInsert_contains_self (s : List String) (x : String) :
    x ∈ setInsert s x := by
  by_cases h : x ∈ s <;> simp [setInsert, h]

/-- `find?` over the key-replacing map used by `dictSet`. -/
theorem find?_replace {α : Type} (k : String) (v : α) (fs : List (String × α)) :
    (fs.map (fun p => if p.1 == k then (k, v) else p)).find? (fun p => p.1 == k)
      = (fs.find? (fun p => p.1 == k)).map (fun _ => (k, v)) := by
  induction fs with
  | nil => rfl
  | cons a as ih =>
    by_cases h : (a.1 == k) = true
    · simp only [List.map_cons, List.find?, h, if_true, beq_self_eq_true]
      rfl
    · have h' : (a.1 == k) = false := by simpa using h
      simp only [List.map_cons, List.find?, h', if_false, Bool.false_eq_true, reduceIte]
      rw [ih]

/-- `find?` over an appended fresh binding. -/
theorem find?_none_append {α : Type} (k : String) (v : α) (fs : List (String × α))
    (h : fs.find? (fun p => p.1 == k) = none) :
    (fs ++ [(k, v)]).find? (fun p => p.1 == k) = some (k, v) := by
  induction fs with
  | nil =>
    simp only [List.nil_append, List.find?, beq_self_eq_true]
  | cons a as ih =>
    simp only [List.find?] at h
    by_cases ha : (a.1 == k) = true
    · rw [ha] at h; simp at h
    · have ha' : (a.1 == k) = false := by simpa using ha
      rw [ha'] at h
      simp only [List.cons_append, List.find?, ha']
      exact ih h

/-- Setting key `k` makes lookup of `k` return the new value. -/
theorem dictLookup_dictSet_self {α : Type} (fs : List (String × α)) (k : String) (v : α) :
    dictLookup (dictSet fs k v) k = some v := by
  by_cases h : (fs.find? (fun p => p.1 == k)).isSome = true
  · obtain ⟨p, hp⟩ := Option.isSome_iff_exists.mp h
    unfold dictLookup dictSet
    rw [if_pos h, find?_replace, hp]
    rfl
  · have hnone : fs.find? (fun p => p.1 == k) = none := by
      cases hf : fs.find? (fun p => p.1 == k)
      · rfl
      · rw [hf] at h; simp at h
    unfold dictLookup dictSet
    rw [if_neg h, find?_none_append k v fs hnone]
    rfl

/-- A successful `exceptMapM` preserves length. -/
theorem exceptMapM_ok_length {α β : Type} (f : α → Except PyErr β) :
    ∀ (xs : List α) (ys : List β), exceptMapM f xs = .ok ys → ys.length = xs.length := by
  intro xs
  induction xs with
  | nil =>
    intro ys h
    unfold exceptMapM at h
    cases h
    rfl
  | cons a as ih =>
    intro ys h
    unfold exceptMapM at h
    cases hfa : f a with
    | error e => rw [hfa] at h; cases h
    | ok b =>
      rw [hfa] at h
      cases hrest : exceptMapM f as with
      | error e => rw [hrest] at h; cases h
      | ok bs =>
        rw [hrest] at h
        cases h
        simp [ih bs hrest]

/- ----------------------------------------------------------------------
Claim theorems
---------------------------------------------------------------------- -/

/-- Claim C1: for a tool spec registered with `allow_multiple = false`, the
first `run` call with its name invokes the handler and wraps its result,
and every subsequent `run` call with the same name on the same registry
instance returns the `deny_second_call` payload (an ordinary result, not a
raised error) without invoking the handler — the second equation holds for
every spec with that flag and membership, independently of the handler. -/
theorem registry_single_use_policy (st : ToolsRegistry) (name : String)
    (spec : ToolSpec) (args1 args2 : PyJson) (r : PyJson) (nl : String)
    (hlook : dictLookup st.tools name = some spec)
    (hmul : spec.allow_multiple = false)
    (hfresh : name ∉ st.called)
    (hh : spec.handler args1 = .ok r)
    (hnl : ToolsRegistry.toNl name r = .ok nl) :
    st.run name args1
      = (.ok (.dict [("_nl", .str nl), ("_raw", r)]),
         { st with called := setInsert st.called name })
  ∧ ToolsRegistry.run { st with called := setInsert st.called name } name args2
      = (.ok (denyPayload name), { st with called := setInsert st.called name }) := by
  constructor
  · unfold ToolsRegistry.run
    rw [hlook]
    simp [hmul, hfresh, hh, hnl]
  · unfold ToolsRegistry.run
    have htools : ({ st with called := setInsert st.called name } : ToolsRegistry).tools
        = st.tools := rfl
    rw [htools, hlook]
    simp [hmul, setInsert_contains_self]

/-- Witness for C1 on a concrete single-use tool. -/
theorem registry_single_use_policy_witness :
    demoReg.run "demo_tool" (.dict [])
      = (.ok (.dict [("_nl", .str "Operation completed."), ("_raw", .dict [("ok", .bool true)])]),
         { demoReg with called := setInsert demoReg.called "demo_tool" })
  ∧ ToolsRegistry.run { demoReg with called := setInsert demoReg.called "demo_tool" }
        "demo_tool" (.dict [])
      = (.ok (denyPayload "demo_tool"),
         { demoReg with called := setInsert demoReg.called "demo_tool" }) :=
  registry_single_use_policy demoReg "demo_tool" demoOnceSpec (.dict []) (.dict [])
    (.dict [("ok", .bool true)]) "Operation completed."
    rfl rfl (by simp [demoReg, ToolsRegistry.register]) rfl rfl

/-- Claim C2 (code bug): in offline/degraded mode (no credential anywhere),
the end-to-end demo message does not produce `used_tools = ["search_books"]`
and a demo title — it raises `ToolError "Unknown tool: search_books"`,
because `build_default_registry` never registers `search_books`.  The
equation holds for every wrap handler, JSON parser and model backend. -/
theorem offline_demo_search_books_raises
    (wrapHandler : PyJson → Except PyErr PyJson)
    (jsonParse : String → Option PyJson) (model : Nat → String → Except PyErr String) :
    dictLookup (build_default_registry wrapHandler).tools "search_books" = none
  ∧ chatWithTools (useFakeOf none none) jsonParse model demoAIMessages []
        (runnerOf (build_default_registry wrapHandler))
      = .error (.toolError "Unknown tool: search_books") :=
  ⟨rfl, rfl⟩

/-- Claim C3 (code bug): a request whose message is empty after trimming is
not answered with the 400 `message is required` validation error; the
`ChatRequest(...)` construction raises `TypeError` (unexpected keyword
argument `history`) inside the `try` block first, so the route returns the
generic 500 `internal error` response — for every possible continuation
`rest`, i.e. without ever invoking the orchestrator. -/
theorem chat_route_empty_message_internal_error
    (rest : String → Except PyErr HttpResponse) :
    chatRoute (.dict [("message", .str "")]) rest = .ok ⟨500, jsonError "internal error"⟩
  ∧ chatRoute (.dict [("message", .str "")]) rest ≠ .ok ⟨400, jsonError "message is required"⟩ := by
  refine ⟨rfl, ?_⟩
  intro h
  rw [show chatRoute (.dict [("message", .str "")]) rest
        = .ok ⟨500, jsonError "internal error"⟩ from rfl] at h
  injection h with h2
  have : (500 : Nat) = 400 := congrArg HttpResponse.status h2
  omega

/-- Claim C4: when the tool-decision reply (stripped, as the code reads it)
is non-empty and does not parse as JSON, `chat_with_tools` returns exactly
that text as the final answer, with no used tools, and the decision prompt is
the only model call of the turn (no summarization call). -/
theorem decide_nonjson_returns_raw_text
    (jsonParse : String → Option PyJson) (model : Nat → String → Except PyErr String)
    (messages : List Message) (toolDecls : List ToolDecl)
    (toolRunner : PyJson → PyJson → Except PyErr PyJson)
    (p0 raw : String)
    (hdp : decidePromptOf toolDecls messages = .ok p0)
    (hm0 : model 0 p0 = .ok raw)
    (hne : pyStrip raw ≠ "")
    (hparse : jsonParse (pyStrip raw) = none) :
    realChat jsonParse model messages toolDecls toolRunner
      = .ok ⟨pyStrip raw, [], [p0]⟩ := by
  simp [realChat, hdp, hm0, hparse, hne, Bind.bind, Except.bind, pure, Except.pure]

/-- Witness for C4: the literal reply `Hello there` comes back verbatim,
zero tools, one single model call. -/
theorem decide_nonjson_returns_raw_text_witness :
    ((realChat (fun _ => none) (fun _ _ => .ok "Hello there") [⟨"user", "hi"⟩] []
        (fun _ _ => .ok .null)).map ChatResult.text = .ok "Hello there")
  ∧ ((realChat (fun _ => none) (fun _ _ => .ok "Hello there") [⟨"user", "hi"⟩] []
        (fun _ _ => .ok .null)).map ChatResult.used = .ok [])
  ∧ ((realChat (fun _ => none) (fun _ _ => .ok "Hello there") [⟨"user", "hi"⟩] []
        (fun _ _ => .ok .null)).map (fun r => r.prompts.length) = .ok 1) := by
  obtain ⟨p0, hp0⟩ : ∃ p, decidePromptOf [] [⟨"user", "hi"⟩] = .ok p := ⟨_, rfl⟩
  have h := decide_nonjson_returns_raw_text (fun _ => none) (fun _ _ => .ok "Hello there")
    [⟨"user", "hi"⟩] [] (fun _ _ => .ok .null) p0 "Hello there"
    hp0 rfl (by decide) rfl
  rw [h]
  exact ⟨rfl, rfl, rfl⟩

/-- Claim C5: whenever the parsed decision JSON names a tool (not
null/empty/none) and the tool runner returns any payload — including the
`deny_second_call` denial — the returned `used_tools` list is exactly that
tool name, whatever the follow-up summarization call does. -/
theorem tool_name_recorded_regardless
    (jsonParse : String → Option PyJson) (model : Nat → String → Except PyErr String)
    (messages : List Message) (toolDecls : List ToolDecl)
    (toolRunner : PyJson → PyJson → Except PyErr PyJson)
    (p0 raw : String) (req : PyJson) (t : String) (argsv payload : PyJson) (sp : String)
    (hdp : decidePromptOf toolDecls messages = .ok p0)
    (hm0 : model 0 p0 = .ok raw)
    (hparse : jsonParse (pyStrip raw) = some req)
    (htruthy : pyTruthy req = true)
    (htool : pyDictGet req "tool" = .ok (.str t))
    (ht1 : t ≠ "") (ht2 : t ≠ "none")
    (hargs : pyDictGet req "args" = .ok argsv)
    (hrun : toolRunner (.str t) (if pyTruthy argsv then argsv else .dict []) = .ok payload)
    (hsp : summaryPromptOf payload = .ok sp) :
    realChat jsonParse model messages toolDecls toolRunner
      = match model 1 sp with
        | .ok final => .ok ⟨final, [.str t], [p0, sp]⟩
        | .error .runtimeError => .ok ⟨RATE_LIMITED_MESSAGE, [.str t], [p0, sp]⟩
        | .error e => .error e := by
  simp only [realChat, hdp, hm0, hparse, htruthy, Bind.bind, Except.bind]
  rw [if_neg (by simp), htool]
  split
  · rename_i err heq
    cases heq
  · rename_i v heq
    injection heq with hv
    subst hv
    split
    · rename_i heq2
      cases heq2
    · rename_i heq2
      injection heq2 with h3
      exact absurd h3 ht1
    · rename_i heq2
      injection heq2 with h3
      exact absurd h3 ht2
    · rw [hargs]
      simp only [hrun, hsp]
      cases hm1 : model 1 sp with
      | ok final => simp [pure, Except.pure]
      | error e => cases e <;> simp [pure, Except.pure, throw, throwThe, MonadExceptOf.throw]

/-- Witness for C5: the runner returns the denial payload, yet the tool name
is recorded as used. -/
theorem tool_name_recorded_regardless_witness :
    (realChat (fun _ => some (.dict [("tool", .str "demo_tool")]))
        (fun n _ => if n = 0 then .ok "x" else .ok "SUMMARY")
        [⟨"user", "hi"⟩] []
        (fun _ _ => .ok (denyPayload "demo_tool"))).map ChatResult.used
      = .ok [.str "demo_tool"] := by
  obtain ⟨p0, hp0⟩ : ∃ p, decidePromptOf [] [⟨"user", "hi"⟩] = .ok p := ⟨_, rfl⟩
  obtain ⟨sp, hsp⟩ : ∃ p, summaryPromptOf (denyPayload "demo_tool") = .ok p := ⟨_, rfl⟩
  have h := tool_name_recorded_regardless (fun _ => some (.dict [("tool", .str "demo_tool")]))
    (fun n _ => if n = 0 then .ok "x" else .ok "SUMMARY") [⟨"user", "hi"⟩] []
    (fun _ _ => .ok (denyPayload "demo_tool")) p0 "x" (.dict [("tool", .str "demo_tool")])
    "demo_tool" .null (denyPayload "demo_tool") sp
    hp0 rfl rfl rfl rfl (by decide) (by decide) rfl rfl hsp
  rw [h]
  rfl

/-- Claim C6: with `max_calls = 3`, `window = 60`, `mode = error`, three
acquires inside one window are admitted and a fourth fails immediately
without recording its timestamp; and any limiter whose `max_calls` is unset
(zero) or negative admits every call unchanged. -/
theorem rate_limiter_error_mode_and_bypass (t1 t2 t3 t4 : ℚ)
    (h12 : t1 ≤ t2) (h23 : t2 ≤ t3) (h34 : t3 ≤ t4) (hw : t4 - t1 < 60) :
    ((⟨3, 60, .error, []⟩ : RateLimiter).acquire t1
        = (.admitted, ⟨3, 60, .error, [t1]⟩)
  ∧ (⟨3, 60, .error, [t1]⟩ : RateLimiter).acquire t2
        = (.admitted, ⟨3, 60, .error, [t1, t2]⟩)
  ∧ (⟨3, 60, .error, [t1, t2]⟩ : RateLimiter).acquire t3
        = (.admitted, ⟨3, 60, .error, [t1, t2, t3]⟩)
  ∧ (⟨3, 60, .error, [t1, t2, t3]⟩ : RateLimiter).acquire t4
        = (.rejected, ⟨3, 60, .error, [t1, t2, t3]⟩))
  ∧ ∀ (L : RateLimiter) (now : ℚ), L.max_calls ≤ 0 →
      L.acquire now = (.admitted, L) := by
  have e21 : ¬ (60 : ℚ) ≤ t2 - t1 := by linarith
  have e31 : ¬ (60 : ℚ) ≤ t3 - t1 := by linarith
  have e41 : ¬ (60 : ℚ) ≤ t4 - t1 := by linarith
  refine ⟨⟨?_, ?_, ?_, ?_⟩, ?_⟩
  · simp [RateLimiter.acquire, evictOld]
  · simp [RateLimiter.acquire, evictOld, e21]
  · simp [RateLimiter.acquire, evictOld, e31]
  · simp [RateLimiter.acquire, evictOld, e41]
  · intro L now h
    have hc : L.max_calls = 0 ∨ L.max_calls < 0 := by
      rcases lt_or_eq_of_le h with hlt | heq
      · exact Or.inr hlt
      · exact Or.inl heq
    unfold RateLimiter.acquire
    rw [if_pos hc]

/-- Witness for C6 at concrete clock values 0, 1, 2, 3, plus two disabled
limiters. -/
theorem rate_limiter_error_mode_and_bypass_witness :
    ((⟨3, 60, .error, []⟩ : RateLimiter).acquire 0
        = (.admitted, ⟨3, 60, .error, [0]⟩)
  ∧ (⟨3, 60, .error, [0]⟩ : RateLimiter).acquire 1
        = (.admitted, ⟨3, 60, .error, [0, 1]⟩)
  ∧ (⟨3, 60, .error, [0, 1]⟩ : RateLimiter).acquire 2
        = (.admitted, ⟨3, 60, .error, [0, 1, 2]⟩)
  ∧ (⟨3, 60, .error, [0, 1, 2]⟩ : RateLimiter).acquire 3
        = (.rejected, ⟨3, 60, .error, [0, 1, 2]⟩))
  ∧ (⟨0, 60, .error, [5]⟩ : RateLimiter).acquire 7 = (.admitted, ⟨0, 60, .error, [5]⟩)
  ∧ (⟨-2, 60, .block, []⟩ : RateLimiter).acquire 7 = (.admitted, ⟨-2, 60, .block, []⟩) := by
  have h := rate_limiter_error_mode_and_bypass 0 1 2 3
    (by norm_num) (by norm_num) (by norm_num) (by norm_num)
  exact ⟨h.1,
         h.2 ⟨0, 60, .error, [5]⟩ 7 (by norm_num),
         h.2 ⟨-2, 60, .block, []⟩ 7 (by norm_num)⟩

/-- Claim C7: `run` on a name that is not registered raises
`ToolError "Unknown tool: ..."`, for every registry state and argument
mapping, leaving the state untouched. -/
theorem run_unknown_tool_raises (st : ToolsRegistry) (name : String) (args : PyJson)
    (h : dictLookup st.tools name = none) :
    st.run name args = (.error (.toolError ("Unknown tool: " ++ name)), st) := by
  unfold ToolsRegistry.run
  rw [h]

/-- Witness for C7 on the empty registry. -/
theorem run_unknown_tool_raises_witness :
    ToolsRegistry.run {} "nonexistent_tool" (.dict [])
      = (.error (.toolError "Unknown tool: nonexistent_tool"), {}) :=
  run_unknown_tool_raises {} "nonexistent_tool" (.dict []) rfl

/-- Claim C8: the natural-language renderer is keyed by tool name — for
`search_books` an empty result list yields the no-results message and a
non-empty list yields a bulleted list of at most five entries, while any
name without a dedicated renderer yields the generic completion string. -/
theorem to_nl_rendering (fields : List (String × PyJson)) (items : List PyJson)
    (tops : List String) (name : String) (payload : PyJson)
    (hitems : dictLookup fields "items" = some (.list items))
    (hname1 : name ≠ "search_books") (hname2 : name ≠ "wrap_prompt_from_links") :
    (items = [] → ToolsRegistry.toNl "search_books" (.dict fields) = .ok "No matching books found.")
  ∧ (items ≠ [] → exceptMapM renderBookLine (items.take 5) = .ok tops →
       ToolsRegistry.toNl "search_books" (.dict fields)
         = .ok ("I found these books:\n- " ++ String.intercalate "\n- " tops)
     ∧ tops.length ≤ 5)
  ∧ ToolsRegistry.toNl name payload = .ok "Operation completed." := by
  refine ⟨?_, ?_, ?_⟩
  · intro h
    subst h
    simp [ToolsRegistry.toNl, pyDictGetD, hitems, pyTruthy, Bind.bind, Except.bind,
          pure, Except.pure]
  · intro hne htops
    constructor
    · simp [ToolsRegistry.toNl, pyDictGetD, hitems, pyTruthy, hne, htops, Bind.bind,
            Except.bind, Functor.map, Except.map, pure, Except.pure]
    · have hlen := exceptMapM_ok_length renderBookLine (items.take 5) tops htops
      rw [hlen, List.length_take]
      exact min_le_left 5 items.length
  · simp [ToolsRegistry.toNl, hname1, hname2, pure, Except.pure]

/-- Witness for C8: empty result list, a six-item list rendered as five
bullets, and an unknown tool name. -/
theorem to_nl_rendering_witness :
    ToolsRegistry.toNl "search_books" (.dict [("items", .list [])])
      = .ok "No matching books found."
  ∧ ToolsRegistry.toNl "search_books"
      (.dict [("items", .list [sampleBook, sampleBook, sampleBook, sampleBook, sampleBook, sampleBook])])
      = .ok ("I found these books:\n- " ++ String.intercalate "\n- "
              (List.replicate 5 "\"Designing with AI\" by Kim Lee (available)"))
  ∧ (List.replicate 5 "\"Designing with AI\" by Kim Lee (available)").length ≤ 5
  ∧ ToolsRegistry.toNl "unknown_demo_tool" (.dict []) = .ok "Operation completed." := by
  have h1 := to_nl_rendering [("items", .list [])] [] [] "unknown_demo_tool" (.dict [])
    rfl (by decide) (by decide)
  have h2 := to_nl_rendering
    [("items", .list [sampleBook, sampleBook, sampleBook, sampleBook, sampleBook, sampleBook])]
    [sampleBook, sampleBook, sampleBook, sampleBook, sampleBook, sampleBook]
    (List.replicate 5 "\"Designing with AI\" by Kim Lee (available)")
    "unknown_demo_tool" (.dict []) rfl (by decide) (by decide)
  refine ⟨h1.1 rfl, ?_, ?_, h1.2.2⟩
  · exact (h2.2.1 (by simp) (by rfl)).1
  · exact (h2.2.1 (by simp) (by rfl)).2

/-- Claim C9: `run` adds the name to the called-set before invoking the
handler, so a handler that raises on the first call still leaves the tool
marked as called, and a second `run` with the same name is denied even
though the handler never completed successfully. -/
theorem run_marks_called_before_handler (st : ToolsRegistry) (name : String)
    (spec : ToolSpec) (args1 args2 : PyJson) (e : PyErr)
    (hlook : dictLookup st.tools name = some spec)
    (hmul : spec.allow_multiple = false)
    (hfresh : name ∉ st.called)
    (hh : spec.handler args1 = .error e) :
    st.run name args1 = (.error e, { st with called := setInsert st.called name })
  ∧ name ∈ ({ st with called := setInsert st.called name } : ToolsRegistry).called
  ∧ ToolsRegistry.run { st with called := setInsert st.called name } name args2
      = (.ok (denyPayload name), { st with called := setInsert st.called name }) := by
  refine ⟨?_, setInsert_contains_self st.called name, ?_⟩
  · unfold ToolsRegistry.run
    rw [hlook]
    simp [hmul, hfresh, hh]
  · unfold ToolsRegistry.run
    have htools : ({ st with called := setInsert st.called name } : ToolsRegistry).tools
        = st.tools := rfl
    rw [htools, hlook]
    simp [hmul, setInsert_contains_self]

/-- Witness for C9 on a tool whose handler raises. -/
theorem run_marks_called_before_handler_witness :
    demoRaiseReg.run "demo_tool" (.dict [])
      = (.error (.other "boom"),
         { demoRaiseReg with called := setInsert demoRaiseReg.called "demo_tool" })
  ∧ "demo_tool" ∈ ({ demoRaiseReg with
        called := setInsert demoRaiseReg.called "demo_tool" } : ToolsRegistry).called
  ∧ ToolsRegistry.run { demoRaiseReg with called := setInsert demoRaiseReg.called "demo_tool" }
        "demo_tool" (.dict [])
      = (.ok (denyPayload "demo_tool"),
         { demoRaiseReg with called := setInsert demoRaiseReg.called "demo_tool" }) :=
  run_marks_called_before_handler demoRaiseReg "demo_tool" demoRaiseSpec (.dict []) (.dict [])
    (.other "boom") rfl rfl (by simp [demoRaiseReg, ToolsRegistry.register]) rfl

/-- Claim C10, counterexample: after running a single-use tool, re-registering
a spec with `allow_multiple = true` under the same name makes the next `run`
invoke the newly registered handler and return its wrapped result, not the
denial payload — even though the called-set still contains the name. -/
theorem register_keeps_called_counterexample :
    (reregStateB.run "demo_once" (.dict [])).1
      = .ok (.dict [("_nl", .str "Operation completed."), ("_raw", .str "from-new-handler")])
  ∧ (reregStateB.run "demo_once" (.dict [])).1 ≠ .ok (denyPayload "demo_once")
  ∧ "demo_once" ∈ reregStateB.called := by
  refine ⟨rfl, ?_, ?_⟩
  · intro h
    rw [show (reregStateB.run "demo_once" (.dict [])).1
          = .ok (.dict [("_nl", .str "Operation completed."), ("_raw", .str "from-new-handler")])
        from rfl] at h
    simp [denyPayload, pyQuote] at h
  · show "demo_once" ∈ (["demo_once"] : List String)
    simp

/-- Claim C10, amended: `register` never clears the called-set, so after a
single-use tool has been run successfully, re-registering a spec that still
has `allow_multiple = false` under the same name (even with a different
handler) makes `run` of that name return the denial payload, and the newly
registered handler is never invoked (the equation is independent of it). -/
theorem register_keeps_called_amended (st : ToolsRegistry) (name : String)
    (spec1 spec2 : ToolSpec) (args1 args2 : PyJson) (r : PyJson) (nl : String)
    (hlook : dictLookup st.tools name = some spec1)
    (hmul1 : spec1.allow_multiple = false)
    (hfresh : name ∉ st.called)
    (hh : spec1.handler args1 = .ok r)
    (hnl : ToolsRegistry.toNl name r = .ok nl)
    (hname2 : spec2.name = name)
    (hmul2 : spec2.allow_multiple = false) :
    st.run name args1
      = (.ok (.dict [("_nl", .str nl), ("_raw", r)]),
         { st with called := setInsert st.called name })
  ∧ (ToolsRegistry.register { st with called := setInsert st.called name } spec2).run
        name args2
      = (.ok (denyPayload name),
         ToolsRegistry.register { st with called := setInsert st.called name } spec2) := by
  constructor
  · unfold ToolsRegistry.run
    rw [hlook]
    simp [hmul1, hfresh, hh, hnl]
  · unfold ToolsRegistry.run
    have hlook2 : dictLookup ((ToolsRegistry.register
        { st with called := setInsert st.called name } spec2).tools) name = some spec2 := by
      unfold ToolsRegistry.register
      show dictLookup (dictSet st.tools spec2.name spec2) name = some spec2
      rw [hname2]
      exact dictLookup_dictSet_self st.tools name spec2
    rw [hlook2]
    have hcalled : (ToolsRegistry.register { st with called := setInsert st.called name }
        spec2).called = setInsert st.called name := rfl
    rw [hcalled]
    simp [hmul2, setInsert_contains_self]

/-- Witness for the amended C10 with a concrete re-registered spec. -/
theorem register_keeps_called_amended_witness :
    (ToolsRegistry.register {} reregSpecV1).run "demo_once" (.dict [])
      = (.ok (.dict [("_nl", .str "Operation completed."), ("_raw", .dict [("v", .num 1)])]),
         { ToolsRegistry.register {} reregSpecV1 with
             called := setInsert (ToolsRegistry.register {} reregSpecV1).called "demo_once" })
  ∧ (ToolsRegistry.register
        { ToolsRegistry.register {} reregSpecV1 with
            called := setInsert (ToolsRegistry.register {} reregSpecV1).called "demo_once" }
        { reregSpecV2 with allow_multiple := false }).run "demo_once" (.dict [])
      = (.ok (denyPayload "demo_once"),
         ToolsRegistry.register
           { ToolsRegistry.register {} reregSpecV1 with
               called := setInsert (ToolsRegistry.register {} reregSpecV1).called "demo_once" }
           { reregSpecV2 with allow_multiple := false }) :=
  register_keeps_called_amended (ToolsRegistry.register {} reregSpecV1) "demo_once"
    reregSpecV1 { reregSpecV2 with allow_multiple := false } (.dict []) (.dict [])
    (.dict [("v", .num 1)]) "Operation completed."
    rfl rfl (by simp [ToolsRegistry.register]) rfl rfl rfl rfl
